import Mathlib

/-!
Verification development for the Nebula repository.

The file shallowly embeds, in Lean 4, the parts of the code base that the
frozen claims speak about:

* the frontend authentication context (src/frontend/src/contexts/AuthContext.jsx);
* the authenticated API service layer (src/unnamed/part_000);
* the lesson page of src/unnamed/part_002 (its response handler, its phase
  vocabulary and its submit handler);
* the guided-learning orchestrator core.  Its Python sources
  (core/orchestrator.py, core/state.py, agents/*.py) are not present under
  src/ — only src/guided_learning_system/README.md is — so that part is
  modelled from the specification text, and every such definition carries a
  doc comment saying so.

Definitions come first, theorems afterwards.
-/

namespace Nebula

/-! ## AuthContext (src/frontend/src/contexts/AuthContext.jsx) -/

namespace AuthContext

/-- A Supabase user as the frontend sees it: the fields of DEV_USER. -/
structure User where
  id : String
  email : String
  full_name : String
deriving DecidableEq, Repr

/-- AuthContext.jsx lines 8-12: the fixed development user. -/
def DEV_USER : User :=
  { id := "00000000-0000-0000-0000-000000000001"
    email := "dev@localhost"
    full_name := "Local Developer" }

/-- AuthContext.jsx line 7:
IS_DEV is true exactly when the page hostname is localhost or 127.0.0.1. -/
def IS_DEV (hostname : String) : Bool :=
  hostname == "localhost" || hostname == "127.0.0.1"

/-- The observable outcome of mounting the AuthProvider: the user value, the
loading flag, and how many Supabase calls the effect performed. -/
structure AuthInit where
  user : Option User
  loading : Bool
  sessionChecks : Nat
  subscriptions : Nat
deriving DecidableEq, Repr

/-- AuthContext.jsx lines 14-37.  useState seeds user with DEV_USER and
loading with false when IS_DEV; the effect returns early in dev mode, and
otherwise performs one supabase.auth.getSession call (which resolves the
user and clears loading) and registers one onAuthStateChange subscription.
The supabaseUser argument is the user of the active Supabase session, if
any, as delivered by getSession. -/
def mountAuthProvider (hostname : String) (supabaseUser : Option User) : AuthInit :=
  if IS_DEV hostname then
    { user := some DEV_USER, loading := false, sessionChecks := 0, subscriptions := 0 }
  else
    { user := supabaseUser, loading := false, sessionChecks := 1, subscriptions := 1 }

end AuthContext

/-! ## API service (src/unnamed/part_000) -/

namespace ApiService

/-- A Supabase auth session: only the access token matters to the service. -/
structure Session where
  access_token : String
deriving DecidableEq, Repr

/-- What fetch returns: response.ok, the HTTP status, the detail field of the
decoded error body (when present) and the decoded JSON body, kept abstract
as a string. -/
structure FetchResponse where
  ok : Bool
  status : Nat
  detail : Option String
  body : String
deriving DecidableEq, Repr

/-- part_000 lines 10-21 (getAuthHeaders): with no session the function
throws the error message Not authenticated; otherwise it returns the
Content-Type and Authorization headers. -/
def getAuthHeaders (session : Option Session) :
    Except String (List (String × String)) :=
  match session with
  | none => .error "Not authenticated"
  | some s =>
      .ok [("Content-Type", "application/json"),
           ("Authorization", "Bearer " ++ s.access_token)]

/-- part_000 lines 24-46 (apiCall).  The headers are awaited first, so a
failure there propagates before any fetch happens.  The second component of
the result records the endpoints actually fetched, in order. -/
def apiCall (doFetch : String → FetchResponse) (session : Option Session)
    (endpoint : String) : Except String String × List String :=
  match getAuthHeaders session with
  | .error e => (.error e, [])
  | .ok _headers =>
      let r := doFetch endpoint
      if r.ok then (.ok r.body, [endpoint])
      else
        (.error ((r.detail).getD ("API Error: " ++ toString r.status)),
         [endpoint])

/-- The operations exported by the api object of part_000, lines 49-148. -/
inductive ApiOp where
  | healthCheck
  | getSession
  | setup
  | approvePath
  | adjustPath
  | getProgress
  | getChallengesMetadata
  | startLesson
  | respondToLesson
  | getLessonSources
  | getAdminStats
  | reset
deriving DecidableEq, Repr

/-- The endpoint each api method passes to apiCall (or, for healthCheck,
fetches directly): part_000 lines 49-148. -/
def endpointOf : ApiOp → String
  | .healthCheck => "/"
  | .getSession => "/session"
  | .setup => "/setup"
  | .approvePath => "/path/approve"
  | .adjustPath => "/path/adjust"
  | .getProgress => "/progress"
  | .getChallengesMetadata => "/challenges/metadata"
  | .startLesson => "/lesson/start"
  | .respondToLesson => "/lesson/respond"
  | .getLessonSources => "/lesson/sources"
  | .getAdminStats => "/admin/stats"
  | .reset => "/reset"

/-- Running one api method of part_000.  healthCheck (lines 50-53) is a bare
fetch of the root endpoint followed by response.json() — no auth headers and
no ok check.  Every other method delegates to apiCall with its endpoint. -/
def runOp (doFetch : String → FetchResponse) (session : Option Session) :
    ApiOp → Except String String × List String
  | .healthCheck => (.ok (doFetch "/").body, ["/"])
  | op => apiCall doFetch session (endpointOf op)

end ApiService

/-! ## LessonPage (src/unnamed/part_002) -/

namespace LessonPage

/-- The editor_content object of a per-turn backend response
(part_002 lines 327-344): a type tag, an optional content template and an
optional language.  The whole object may also be absent (null), which is
modelled by Option EditorContent at the use site. -/
structure EditorContent where
  type : Option String
  content : Option String
  language : Option String
deriving DecidableEq, Repr

/-- The lesson_status object: part_002 line 270.  Only current_phase is
read by the page. -/
structure LessonStatus where
  current_phase : Option String
deriving DecidableEq, Repr

/-- The lesson_info object: part_002 lines 510-519. -/
structure LessonInfo where
  module_number : Nat
  challenge_number : Nat
  topic : String
deriving DecidableEq, Repr

/-- One per-turn response from the backend, as consumed by handleResponse
(part_002 lines 321-345). -/
structure LessonResponse where
  conversation_content : Option String
  lesson_status : Option LessonStatus
  lesson_info : Option LessonInfo
  editor_content : Option EditorContent
deriving DecidableEq, Repr

/-- The page state that handleResponse writes
(part_002 lines 266-271). -/
structure PageState where
  currentResponse : String
  lessonStatus : LessonStatus
  lessonInfo : Option LessonInfo
  editorContent : String
  editorType : String
  editorLanguage : String
deriving DecidableEq, Repr

/-- part_002 lines 321-345 (handleResponse).  The stripMd argument stands
for the stripMarkdown text helper of part_002 lines 239-260; it is only
applied in the editor.type equals text branch and its definition (plain
regex-based markdown stripping) is irrelevant to every claim, so it is a
parameter of the model.  JS field-or-default reads (a || b) become getD. -/
def handleResponse (stripMd : String → String) (st : PageState)
    (resp : LessonResponse) : PageState :=
  let base : PageState :=
    { st with
      currentResponse := resp.conversation_content.getD ""
      lessonStatus := resp.lesson_status.getD { current_phase := none }
      lessonInfo := resp.lesson_info }
  match resp.editor_content with
  | some e =>
      if e.type = some "code" then
        { base with
          editorContent := e.content.getD ""
          editorType := "code"
          editorLanguage := e.language.getD "yaml" }
      else if e.type = some "text" then
        { base with
          editorContent := stripMd (e.content.getD "")
          editorType := "text"
          editorLanguage := "text" }
      else
        { base with
          editorContent := ""
          editorType := "text"
          editorLanguage := "text" }
  | none =>
      { base with
        editorContent := ""
        editorType := "text"
        editorLanguage := "text" }

/-- part_002 lines 733-792: the page renders the Monaco code editor exactly
when editorType is code, and a plain textarea otherwise. -/
def rendersCodeEditor (st : PageState) : Bool :=
  st.editorType == "code"

/-- part_002 line 385: the completion test applied to lesson_status. -/
def isCompleted (status : LessonStatus) : Bool :=
  status.current_phase == some "COMPLETED"

/-- part_002 line 388: the 4-phase structure of the phase indicator. -/
def phases : List String :=
  ["ENGAGE", "DEEPEN", "APPLY", "COMPLETED"]

/-- part_002 lines 389-394: the label shown for each phase; none for a
value outside the vocabulary (a JS object lookup miss). -/
def phaseLabels (p : String) : Option String :=
  if p = "ENGAGE" then some "Warm Up"
  else if p = "DEEPEN" then some "Understand"
  else if p = "APPLY" then some "Apply"
  else if p = "COMPLETED" then some "Done"
  else none

/-- part_002 line 401: the position of the current phase in the indicator
(List.indexOf returns the length on a miss, as indexOf returns -1 in JS;
the miss case is kept distinguishable the same way). -/
def currentPhaseIndex (status : LessonStatus) : Nat :=
  phases.indexOf (status.current_phase.getD "")

/-! ### The submit path of part_002 (lines 347-367 and 812-814) -/

/-- The fragment of component state that the submit path reads and
writes, plus an instrumentation counter: inflight counts the
api.respondToLesson calls that have been sent and have not yet settled. -/
structure SubmitState where
  editorContent : String
  submitting : Bool
  inflight : Nat
deriving DecidableEq, Repr

/-- External stimuli of the submit path: the learner pressing Submit (or
Cmd-Enter), and one outstanding request settling (the finally block of
handleSubmit runs on success and on error alike). -/
inductive SubmitEvent where
  | press
  | settle (newContent : String)
deriving DecidableEq, Repr

/-- part_002 lines 347-367 (handleSubmit) plus line 814 (the button is
disabled on the same condition the handler re-checks).  A press with empty
trimmed content or with submitting already true returns without sending
anything; otherwise submitting is set and one request goes out.  When a
request settles, the finally block clears submitting; a successful response
also rewrites the editor content through handleResponse, which the settle
event carries as newContent (on error it carries the old content). -/
def submitStep (st : SubmitState) : SubmitEvent → SubmitState
  | .press =>
      if st.editorContent.trim.isEmpty || st.submitting then st
      else { st with submitting := true, inflight := st.inflight + 1 }
  | .settle newContent =>
      if st.inflight = 0 then st
      else { st with editorContent := newContent, submitting := false,
                     inflight := st.inflight - 1 }

/-- The submit-path state reached from an idle page (no request in flight)
after a sequence of stimuli. -/
def runSubmits (content : String) (events : List SubmitEvent) : SubmitState :=
  events.foldl submitStep
    { editorContent := content, submitting := false, inflight := 0 }

/-- The submit-path invariant of part_002: a request is in flight exactly
while the submitting flag is set. -/
def SubmitInv (st : SubmitState) : Prop :=
  st.inflight = if st.submitting then 1 else 0

end LessonPage

/-! ## Guided learning system core

Modelled from the spec: the Python sources of guided_learning_system
(core/orchestrator.py, core/state.py, agents/path_generator.py,
agents/evaluator.py, agents/tutor.py, agents/reviewer.py) are not under
src/; only src/guided_learning_system/README.md is.  The definitions in
this namespace follow the spec (sections 3, 4.3, 4.4, 4.5, 7) and the
README (SystemConfig defaults, state transition rules). -/

namespace GLS

/-- Modelled from the spec, section 4.5: the session phase enum. -/
inductive Phase where
  | INIT
  | PATH_SELECTION
  | TEACHING
  | COMPLETE
deriving DecidableEq, Repr

/-- Modelled from the spec, section 3 (PathNode): one atomic teachable
concept. -/
structure PathNode where
  title : String
  description : String
  expected_practice : String
deriving DecidableEq, Repr

/-- Modelled from the spec, section 3 (EvaluatorVerdict): the enumerated
learner-intent classification. -/
inductive LearnerIntent where
  | attempt_answer
  | question
  | off_topic
  | give_up
deriving DecidableEq, Repr

/-- Modelled from the spec, section 3 (EvaluatorVerdict). -/
structure EvaluatorVerdict where
  intent : LearnerIntent
  should_advance : Bool
  guidance : String
deriving DecidableEq, Repr

/-- Modelled from the spec, section 3 (Turn): one exchange; the learner
response and the verdict are nullable. -/
structure Turn where
  node_index : Nat
  tutor_output : String
  learner_response : Option String
  verdict : Option EvaluatorVerdict
deriving DecidableEq, Repr

/-- Modelled from the spec, sections 3 and 6 (LessonPlan). -/
structure LessonPlan where
  objectives : List String
  topic : String
  module_number : Nat
deriving DecidableEq, Repr

/-- Modelled from the README SystemConfig (config.py is not under src/):
the reviewer retry limit and the per-agent history windows, with their
documented defaults. -/
structure SystemConfig where
  max_reviewer_retries : Nat := 3
  evaluator_history_window : Nat := 2
  tutor_history_window : Nat := 6
deriving DecidableEq, Repr

/-- Modelled from the spec, section 3 (ReviewResult). -/
structure ReviewResult where
  passed : Bool
  violations : List String
  replacement : Option String
deriving DecidableEq, Repr

/-- The outcome of one run of the Reviewer gate: the text released to the
learner, the number of redraft requests spent, and whether the safety
bypass fired (a degraded-quality event per spec section 4.4). -/
structure GateResult where
  released : String
  retries_used : Nat
  degraded : Bool
deriving DecidableEq, Repr

/-- Modelled from the spec, sections 4.4 and 9: the Reviewer gate is an
explicit bounded loop.  With fuel left, the current draft is reviewed: a
pass releases it; a fail spends one redraft request, producing a new draft
that carries the violation list.  At fuel zero the safety bypass releases
the last draft unreviewed and flags the degraded-quality event. -/
def reviewerGateAux (review : String → ReviewResult)
    (redraft : String → List String → String) :
    Nat → String → Nat → GateResult
  | 0, draft, used =>
      { released := draft, retries_used := used, degraded := true }
  | fuel + 1, draft, used =>
      let r := review draft
      if r.passed then
        { released := draft, retries_used := used, degraded := false }
      else
        reviewerGateAux review redraft fuel (redraft draft r.violations) (used + 1)

/-- Modelled from the spec, section 4.4: the Reviewer gate applied to a
fresh Tutor draft, with the configured retry budget. -/
def reviewerGate (review : String → ReviewResult)
    (redraft : String → List String → String) (budget : Nat)
    (draft : String) : GateResult :=
  reviewerGateAux review redraft budget draft 0

/-- The draft obtained from an initial draft after n failed-review
redrafts, each carrying the violation list of the draft it replaces. -/
def redraftChain (review : String → ReviewResult)
    (redraft : String → List String → String) : Nat → String → String
  | 0, draft => draft
  | n + 1, draft => redraftChain review redraft n (redraft draft (review draft).violations)

/-- Modelled from the spec, section 5: a bounded trailing window of the
turn history (the last n turns). -/
def windowOf (n : Nat) (history : List Turn) : List Turn :=
  history.drop (history.length - n)

/-- Modelled from the spec, section 4.3: the Evaluator sees the last
evaluator_history_window turns (default 2). -/
def evalWindow (cfg : SystemConfig) (history : List Turn) : List Turn :=
  windowOf cfg.evaluator_history_window history

/-- Modelled from the spec, section 4.2: the Tutor sees the last
tutor_history_window turns (default 6). -/
def tutorWindow (cfg : SystemConfig) (history : List Turn) : List Turn :=
  windowOf cfg.tutor_history_window history

/-- Modelled from the spec, sections 4.1-4.4 and 9: the four agent
capabilities the Orchestrator wires together, each a deterministic
function from its role-specific input to its role-specific output. -/
structure Agents where
  generate_paths : LessonPlan → List (List PathNode)
  tutor_draft : PathNode → List Turn → Option String → String
  tutor_redraft : String → List String → String
  review : String → ReviewResult
  evaluate : String → List Turn → String → EvaluatorVerdict

/-- Modelled from the spec, section 3 (SessionState): the central mutable
entity owned by the Orchestrator. -/
structure SessionState where
  candidates : List (List PathNode)
  path : List PathNode
  index : Nat
  phase : Phase
  history : List Turn
  reviewer_retries : Nat
deriving DecidableEq, Repr

/-- Modelled from the spec, section 3: the SessionState created at session
start. -/
def SessionState.initial : SessionState :=
  { candidates := [], path := [], index := 0, phase := .INIT,
    history := [], reviewer_retries := 0 }

/-- Modelled from the spec, section 7: the error taxonomy.  WrongPhaseInput
covers an event arriving in a phase for which the state machine defines no
transition (the spec defines no edge for it, so the model rejects it). -/
inductive OrchError where
  | GenerationError
  | MalformedAgentOutput
  | InvalidLessonSelection
  | SessionClosedError
  | WrongPhaseInput
deriving DecidableEq, Repr

/-- Modelled from the spec, section 6: the slice of the per-turn output
contract the core model needs (the text shown to the learner and the
current phase). -/
structure TurnOutput where
  conversation_content : String
  current_phase : Phase
deriving DecidableEq, Repr

/-- Modelled from the spec, section 4.5: the external stimuli of one
session, in state-machine order. -/
inductive Event where
  | start (plan : LessonPlan)
  | selectPath (choice : Nat)
  | respond (input : String)

/-- Modelled from the spec, section 4.5 (INIT): load the plan, invoke the
Path Generator, transition to PATH_SELECTION.  An empty candidate set is a
fatal session-start GenerationError (section 4.1). -/
def doStart (ag : Agents) (st : SessionState) (plan : LessonPlan) :
    Except OrchError (SessionState × TurnOutput) :=
  if st.phase = .INIT then
    let cands := ag.generate_paths plan
    if cands.isEmpty then .error .GenerationError
    else
      .ok ({ st with
             candidates := cands
             phase := .PATH_SELECTION },
           { conversation_content := "", current_phase := .PATH_SELECTION })
  else .error .WrongPhaseInput

/-- Modelled from the spec, section 4.5 (PATH_SELECTION): on selection, set
the active path, node index 0, discard the candidates, transition to
TEACHING, and run the first DRAFTING/REVIEWING pass for node 0 (first visit,
so no evaluator guidance). -/
def doSelect (cfg : SystemConfig) (ag : Agents) (st : SessionState)
    (choice : Nat) : Except OrchError (SessionState × TurnOutput) :=
  if st.phase = .PATH_SELECTION then
    match st.candidates[choice]? with
    | none => .error .InvalidLessonSelection
    | some p =>
        match p[0]? with
        | none => .error .GenerationError
        | some node0 =>
            let gate := reviewerGate ag.review ag.tutor_redraft
              cfg.max_reviewer_retries
              (ag.tutor_draft node0 (tutorWindow cfg st.history) none)
            .ok ({ st with
                   candidates := []
                   path := p
                   index := 0
                   phase := .TEACHING
                   history := st.history ++
                     [{ node_index := 0, tutor_output := gate.released,
                        learner_response := none, verdict := none }]
                   reviewer_retries := gate.retries_used },
                 { conversation_content := gate.released,
                   current_phase := .TEACHING })
  else .error .WrongPhaseInput

/-- Modelled from the spec, section 4.5 (the ADVANCE edge): increment the
node index and reset the retry counter; if the new index equals the path
length the session is COMPLETE, otherwise the next node is drafted and
review-gated. -/
def advanceStep (cfg : SystemConfig) (ag : Agents) (st : SessionState)
    (input : String) (verdict : EvaluatorVerdict) :
    Except OrchError (SessionState × TurnOutput) :=
  if st.index + 1 = st.path.length then
    .ok ({ st with
           index := st.index + 1
           phase := .COMPLETE
           history := st.history ++
             [{ node_index := st.index, tutor_output := "",
                learner_response := some input, verdict := some verdict }]
           reviewer_retries := 0 },
         { conversation_content := "", current_phase := .COMPLETE })
  else
    match st.path[st.index + 1]? with
    | none => .error .WrongPhaseInput
    | some nextNode =>
        let gate := reviewerGate ag.review ag.tutor_redraft
          cfg.max_reviewer_retries
          (ag.tutor_draft nextNode (tutorWindow cfg st.history) none)
        .ok ({ st with
               index := st.index + 1
               phase := .TEACHING
               history := st.history ++
                 [{ node_index := st.index, tutor_output := gate.released,
                    learner_response := some input, verdict := some verdict }]
               reviewer_retries := gate.retries_used },
             { conversation_content := gate.released,
               current_phase := .TEACHING })

/-- Modelled from the spec, section 4.5 (the REMEDIATE edge): stay at the
same index and feed the evaluator guidance verbatim into a new Tutor draft
for the same node, review-gated as usual. -/
def remediateStep (cfg : SystemConfig) (ag : Agents) (st : SessionState)
    (input : String) (verdict : EvaluatorVerdict) (node : PathNode) :
    Except OrchError (SessionState × TurnOutput) :=
  let gate := reviewerGate ag.review ag.tutor_redraft
    cfg.max_reviewer_retries
    (ag.tutor_draft node (tutorWindow cfg st.history) (some verdict.guidance))
  .ok ({ st with
         history := st.history ++
           [{ node_index := st.index, tutor_output := gate.released,
              learner_response := some input, verdict := some verdict }],
         reviewer_retries := gate.retries_used },
       { conversation_content := gate.released, current_phase := .TEACHING })

/-- Modelled from the spec, section 4.5: the verdict picks the ADVANCE or
the REMEDIATE edge. -/
def respondWith (cfg : SystemConfig) (ag : Agents) (st : SessionState)
    (input : String) (node : PathNode) (verdict : EvaluatorVerdict) :
    Except OrchError (SessionState × TurnOutput) :=
  if verdict.should_advance then advanceStep cfg ag st input verdict
  else remediateStep cfg ag st input verdict node

/-- Modelled from the spec, section 4.5 (TEACHING sub-loop): a learner
response is evaluated against the current node, then the verdict picks the
ADVANCE or the REMEDIATE edge. -/
def doRespond (cfg : SystemConfig) (ag : Agents) (st : SessionState)
    (input : String) : Except OrchError (SessionState × TurnOutput) :=
  if st.phase = .TEACHING then
    match st.path[st.index]? with
    | none => .error .WrongPhaseInput
    | some node =>
        respondWith cfg ag st input node
          (ag.evaluate input (evalWindow cfg st.history) node.expected_practice)
  else .error .WrongPhaseInput

/-- Modelled from the spec, sections 4.5 and 7: the state machine step.
COMPLETE is terminal — any further input is rejected with
SessionClosedError before anything else is looked at. -/
def step (cfg : SystemConfig) (ag : Agents) (st : SessionState) :
    Event → Except OrchError (SessionState × TurnOutput) :=
  fun e =>
    if st.phase = .COMPLETE then .error .SessionClosedError
    else
      match e with
      | .start plan => doStart ag st plan
      | .selectPath choice => doSelect cfg ag st choice
      | .respond input => doRespond cfg ag st input

/-- The session states reachable from the initial state under a fixed
configuration and agent set. -/
inductive Reachable (cfg : SystemConfig) (ag : Agents) : SessionState → Prop
  | initial : Reachable cfg ag SessionState.initial
  | next {st e st' out} : Reachable cfg ag st →
      step cfg ag st e = .ok (st', out) → Reachable cfg ag st'

/-- The structural invariant the orchestrator maintains; it pins the index
down in each phase. -/
def Inv (st : SessionState) : Prop :=
  ((st.phase = .INIT ∨ st.phase = .PATH_SELECTION) → st.index = 0) ∧
  (st.phase = .TEACHING → st.index < st.path.length) ∧
  (st.phase = .COMPLETE → st.index = st.path.length)

/-! ### The Evaluator pipeline (for the determinism claim) -/

/-- Modelled from the spec, section 6 (generation client contract) with the
evaluator role defaults applied: the client maps a prompt to generated
text, and the structural parse of the reply yields an EvaluatorVerdict.
Section 4.3 fixes the role at low sampling temperature so the call is
deterministic, which the function type encodes. -/
structure EvalClient where
  generate : String → String
  decode : String → EvaluatorVerdict

/-- The transcript line a turn contributes to a context window. -/
def turnTranscript (t : Turn) : String :=
  t.tutor_output ++ "\n" ++ t.learner_response.getD ""

/-- Modelled from the spec, section 4.3: the Evaluator prompt is built from
exactly the learner response, the trailing context window and the current
node expected-practice description (the prompt wording itself is out of
scope; the model fixes one concatenation). -/
def evaluatorPrompt (response : String) (window : List Turn)
    (expected : String) : String :=
  "EXPECTED PRACTICE:\n" ++ expected ++
  "\nCONTEXT:\n" ++ String.intercalate "\n" (window.map turnTranscript) ++
  "\nLEARNER RESPONSE:\n" ++ response

/-- Modelled from the spec, section 4.3: one Evaluator invocation. -/
def runEvaluator (c : EvalClient) (response : String) (window : List Turn)
    (expected : String) : EvaluatorVerdict :=
  c.decode (c.generate (evaluatorPrompt response window expected))

/-- The expected-practice description of the current node, if any. -/
def currentExpected (st : SessionState) : Option String :=
  (st.path[st.index]?).map fun n => n.expected_practice

/-- The Evaluator as the orchestrator invokes it on a session state: its
inputs are the learner response, the bounded evaluator window and the
current node expected-practice description, and nothing else. -/
def evaluateInState (c : EvalClient) (cfg : SystemConfig)
    (st : SessionState) (input : String) : Option EvaluatorVerdict :=
  (currentExpected st).map fun expected =>
    runEvaluator c input (evalWindow cfg st.history) expected

/-- Whether an event is a learner response whose Evaluator verdict, as the
orchestrator computes it in this state, carries should_advance = true — the
guard of the ADVANCE edge of spec section 4.5. -/
def eventIsAdvance (cfg : SystemConfig) (ag : Agents) (st : SessionState) :
    Event → Bool
  | .respond input =>
      match st.path[st.index]? with
      | some node =>
          (ag.evaluate input (evalWindow cfg st.history)
            node.expected_practice).should_advance
      | none => false
  | _ => false

/-! ### Concrete data for witnesses -/

/-- A concrete configuration: all README defaults. -/
def demoCfg : SystemConfig := {}

/-- A concrete path node. -/
def demoNode : PathNode :=
  { title := "Pods"
    description := "The smallest deployable unit"
    expected_practice := "Name what a pod groups together" }

/-- A second concrete path node. -/
def demoNode2 : PathNode :=
  { title := "Services"
    description := "Stable virtual endpoints"
    expected_practice := "Explain how a service finds its pods" }

/-- Concrete turns for window equality checks. -/
def demoTurn0 : Turn :=
  { node_index := 0, tutor_output := "T0", learner_response := some "r0",
    verdict := none }

def demoTurn1 : Turn :=
  { node_index := 0, tutor_output := "T1", learner_response := some "r1",
    verdict := none }

def demoTurn2 : Turn :=
  { node_index := 0, tutor_output := "T2", learner_response := none,
    verdict := none }

/-- A concrete deterministic evaluator client. -/
def demoClient : EvalClient :=
  { generate := fun p => p
    decode := fun s =>
      { intent := .attempt_answer
        should_advance := decide (s.length % 2 = 0)
        guidance := "look again" } }

/-- A concrete lesson plan. -/
def demoPlan : LessonPlan :=
  { objectives := ["Describe what a pod is"], topic := "Kubernetes",
    module_number := 2 }

/-- A concrete agent set whose reviewer always passes and whose evaluator
always advances. -/
def demoAgents : Agents :=
  { generate_paths := fun _ => [[demoNode]]
    tutor_draft := fun n _ _ => "teach " ++ n.title
    tutor_redraft := fun d _ => d ++ "+"
    review := fun _ => { passed := true, violations := [], replacement := none }
    evaluate := fun _ _ _ =>
      { intent := .attempt_answer, should_advance := true, guidance := "" } }

/-- A second concrete agent set, different from demoAgents, used to show
that a closed session rejects input no matter which agents are wired in. -/
def demoAgentsB : Agents :=
  { generate_paths := fun _ => []
    tutor_draft := fun _ _ _ => "other"
    tutor_redraft := fun d _ => d
    review := fun _ => { passed := false, violations := ["tone"], replacement := none }
    evaluate := fun _ _ _ =>
      { intent := .off_topic, should_advance := false, guidance := "clarify" } }

/-- The state after starting a session with demoAgents from the initial
state. -/
def demoS1 : SessionState :=
  { candidates := [[demoNode]], path := [], index := 0,
    phase := .PATH_SELECTION, history := [], reviewer_retries := 0 }

/-- The per-turn output of that start step. -/
def demoOut1 : TurnOutput :=
  { conversation_content := "", current_phase := .PATH_SELECTION }

/-- The state after selecting candidate 0. -/
def demoS2 : SessionState :=
  { candidates := [], path := [demoNode], index := 0, phase := .TEACHING,
    history := [{ node_index := 0, tutor_output := "teach Pods",
                  learner_response := none, verdict := none }],
    reviewer_retries := 0 }

/-- The per-turn output of the selection step. -/
def demoOut2 : TurnOutput :=
  { conversation_content := "teach Pods", current_phase := .TEACHING }

/-- The verdict demoAgents produces on any response. -/
def demoVerdict : EvaluatorVerdict :=
  { intent := .attempt_answer, should_advance := true, guidance := "" }

/-- The state after the learner's response advances past the only node:
the session is complete. -/
def demoS3 : SessionState :=
  { candidates := [], path := [demoNode], index := 1, phase := .COMPLETE,
    history := [{ node_index := 0, tutor_output := "teach Pods",
                  learner_response := none, verdict := none },
                { node_index := 0, tutor_output := "",
                  learner_response := some "it groups containers",
                  verdict := some demoVerdict }],
    reviewer_retries := 0 }

/-- The per-turn output of the completing step. -/
def demoOut3 : TurnOutput :=
  { conversation_content := "", current_phase := .COMPLETE }

/-- A session state used for the evaluator-determinism witness: one node,
a two-turn history. -/
def demoEvalState1 : SessionState :=
  { candidates := [], path := [demoNode], index := 0, phase := .TEACHING,
    history := [demoTurn1, demoTurn2], reviewer_retries := 0 }

/-- A second session state that differs from demoEvalState1 in its extra
path tail, its longer history and its retry counter, but agrees on the
evaluator window and the current expected practice. -/
def demoEvalState2 : SessionState :=
  { candidates := [], path := [demoNode, demoNode2], index := 0,
    phase := .TEACHING, history := [demoTurn0, demoTurn1, demoTurn2],
    reviewer_retries := 2 }

end GLS

/-! ## Theorems -/

/-- C10: whenever the page hostname is localhost or 127.0.0.1, mounting the
AuthProvider yields the fixed DEV_USER (id
00000000-0000-0000-0000-000000000001, email dev@localhost) with loading
false, performs no Supabase session check and registers no auth-state
subscription, and leaves the user non-null, so the protected routes that
gate on a signed-in user are reachable without any sign-in. -/
theorem C10_dev_mode_bypasses_auth (hostname : String)
    (supabaseUser : Option AuthContext.User)
    (h : hostname = "localhost" ∨ hostname = "127.0.0.1") :
    AuthContext.mountAuthProvider hostname supabaseUser =
      { user := some AuthContext.DEV_USER, loading := false,
        sessionChecks := 0, subscriptions := 0 } ∧
    AuthContext.DEV_USER.id = "00000000-0000-0000-0000-000000000001" ∧
    AuthContext.DEV_USER.email = "dev@localhost" ∧
    (AuthContext.mountAuthProvider hostname supabaseUser).user.isSome = true := by
  have hd : AuthContext.IS_DEV hostname = true := by
    rcases h with h | h <;> subst h <;> rfl
  refine ⟨?_, rfl, rfl, ?_⟩ <;>
    simp [AuthContext.mountAuthProvider, hd]

/-- Witness for C10 at hostname localhost. -/
theorem C10_dev_mode_bypasses_auth_witness :
    AuthContext.mountAuthProvider "localhost" none =
      { user := some AuthContext.DEV_USER, loading := false,
        sessionChecks := 0, subscriptions := 0 } ∧
    AuthContext.DEV_USER.id = "00000000-0000-0000-0000-000000000001" ∧
    AuthContext.DEV_USER.email = "dev@localhost" ∧
    (AuthContext.mountAuthProvider "localhost" none).user.isSome = true :=
  C10_dev_mode_bypasses_auth "localhost" none (Or.inl rfl)

/-- C9: with no Supabase session, every api method other than healthCheck
rejects with the error Not authenticated and fetches nothing, while
healthCheck performs exactly one unauthenticated fetch of the root
endpoint and returns its decoded body. -/
theorem C9_api_requires_auth (doFetch : String → ApiService.FetchResponse)
    (op : ApiService.ApiOp) (hop : op ≠ ApiService.ApiOp.healthCheck) :
    ApiService.runOp doFetch none op =
      (Except.error "Not authenticated", []) ∧
    ApiService.runOp doFetch none ApiService.ApiOp.healthCheck =
      (Except.ok (doFetch "/").body, ["/"]) := by
  constructor
  · cases op <;> first
      | exact absurd rfl hop
      | rfl
  · rfl

/-- Witness for C9 at the getSession method. -/
theorem C9_api_requires_auth_witness :
    ApiService.runOp (fun _ => { ok := true, status := 200, detail := none, body := "up" })
      none ApiService.ApiOp.getSession =
      (Except.error "Not authenticated", []) ∧
    ApiService.runOp (fun _ => { ok := true, status := 200, detail := none, body := "up" })
      none ApiService.ApiOp.healthCheck = (Except.ok "up", ["/"]) :=
  C9_api_requires_auth
    (fun _ => { ok := true, status := 200, detail := none, body := "up" })
    ApiService.ApiOp.getSession (by simp)

/-- C5: when a per-turn response carries editor_content null, handleResponse
puts the editor in plain-text mode with empty content and language text,
and the page renders the textarea, never the code editor, for that turn. -/
theorem C5_null_editor_is_free_text (stripMd : String → String)
    (st : LessonPage.PageState) (resp : LessonPage.LessonResponse)
    (h : resp.editor_content = none) :
    (LessonPage.handleResponse stripMd st resp).editorContent = "" ∧
    (LessonPage.handleResponse stripMd st resp).editorType = "text" ∧
    (LessonPage.handleResponse stripMd st resp).editorLanguage = "text" ∧
    LessonPage.rendersCodeEditor (LessonPage.handleResponse stripMd st resp) = false := by
  simp [LessonPage.handleResponse, LessonPage.rendersCodeEditor, h]

/-- Witness for C5 at a concrete TEACHING-style response with null
editor_content. -/
theorem C5_null_editor_is_free_text_witness :
    (LessonPage.handleResponse id
      { currentResponse := "", lessonStatus := { current_phase := none },
        lessonInfo := none, editorContent := "old", editorType := "code",
        editorLanguage := "yaml" }
      { conversation_content := some "What does a pod do?",
        lesson_status := some { current_phase := some "ENGAGE" },
        lesson_info := none, editor_content := none }).editorContent = "" ∧
    (LessonPage.handleResponse id
      { currentResponse := "", lessonStatus := { current_phase := none },
        lessonInfo := none, editorContent := "old", editorType := "code",
        editorLanguage := "yaml" }
      { conversation_content := some "What does a pod do?",
        lesson_status := some { current_phase := some "ENGAGE" },
        lesson_info := none, editor_content := none }).editorType = "text" ∧
    (LessonPage.handleResponse id
      { currentResponse := "", lessonStatus := { current_phase := none },
        lessonInfo := none, editorContent := "old", editorType := "code",
        editorLanguage := "yaml" }
      { conversation_content := some "What does a pod do?",
        lesson_status := some { current_phase := some "ENGAGE" },
        lesson_info := none, editor_content := none }).editorLanguage = "text" ∧
    LessonPage.rendersCodeEditor (LessonPage.handleResponse id
      { currentResponse := "", lessonStatus := { current_phase := none },
        lessonInfo := none, editorContent := "old", editorType := "code",
        editorLanguage := "yaml" }
      { conversation_content := some "What does a pod do?",
        lesson_status := some { current_phase := some "ENGAGE" },
        lesson_info := none, editor_content := none }) = false :=
  C5_null_editor_is_free_text id
    { currentResponse := "", lessonStatus := { current_phase := none },
      lessonInfo := none, editorContent := "old", editorType := "code",
      editorLanguage := "yaml" }
    { conversation_content := some "What does a pod do?",
      lesson_status := some { current_phase := some "ENGAGE" },
      lesson_info := none, editor_content := none }
    rfl

/-- C4 counterexample: the lesson page of part_002 draws current_phase from
the vocabulary ENGAGE, DEEPEN, APPLY, COMPLETED, not from INIT,
PATH_SELECTION, TEACHING, COMPLETE.  Concretely, ENGAGE is in the page
phase list but not in the claimed enum, TEACHING and COMPLETE are not in
the page phase list, and the completion test accepts COMPLETED while
rejecting COMPLETE. -/
theorem C4_phase_enum_counterexample :
    LessonPage.phases = ["ENGAGE", "DEEPEN", "APPLY", "COMPLETED"] ∧
    "ENGAGE" ∈ LessonPage.phases ∧
    "ENGAGE" ∉ (["INIT", "PATH_SELECTION", "TEACHING", "COMPLETE"] : List String) ∧
    "TEACHING" ∉ LessonPage.phases ∧
    "COMPLETE" ∉ LessonPage.phases ∧
    LessonPage.isCompleted { current_phase := some "COMPLETE" } = false ∧
    LessonPage.isCompleted { current_phase := some "COMPLETED" } = true := by
  refine ⟨rfl, ?_, ?_, ?_, ?_, rfl, rfl⟩ <;> decide

/-- C4 (amended): every per-turn current_phase value of the UI phase
vocabulary ENGAGE, DEEPEN, APPLY, COMPLETED is resolved by the lesson page
of part_002: it has a label, its indicator index is inside the phase list,
and the completion test recognizes exactly COMPLETED, the last of the four
phases. -/
theorem C4_phase_enum_amended (p : String) (hp : p ∈ LessonPage.phases) :
    (LessonPage.phaseLabels p).isSome = true ∧
    LessonPage.currentPhaseIndex { current_phase := some p } <
      LessonPage.phases.length ∧
    (LessonPage.isCompleted { current_phase := some p } = true ↔
      p = "COMPLETED") ∧
    (LessonPage.isCompleted { current_phase := some p } = true ↔
      LessonPage.currentPhaseIndex { current_phase := some p } =
        LessonPage.phases.length - 1) := by
  simp only [LessonPage.phases, List.mem_cons, List.not_mem_nil, or_false] at hp
  rcases hp with rfl | rfl | rfl | rfl <;> decide

/-- Witness for the amended C4 at the phase ENGAGE. -/
theorem C4_phase_enum_amended_witness :
    (LessonPage.phaseLabels "ENGAGE").isSome = true ∧
    LessonPage.currentPhaseIndex { current_phase := some "ENGAGE" } <
      LessonPage.phases.length ∧
    (LessonPage.isCompleted { current_phase := some "ENGAGE" } = true ↔
      "ENGAGE" = "COMPLETED") ∧
    (LessonPage.isCompleted { current_phase := some "ENGAGE" } = true ↔
      LessonPage.currentPhaseIndex { current_phase := some "ENGAGE" } =
        LessonPage.phases.length - 1) :=
  C4_phase_enum_amended "ENGAGE" (by decide)

theorem LessonPage.submitStep_inv {st : LessonPage.SubmitState}
    (hInv : LessonPage.SubmitInv st) (e : LessonPage.SubmitEvent) :
    LessonPage.SubmitInv (LessonPage.submitStep st e) := by
  unfold LessonPage.SubmitInv at hInv ⊢
  cases e with
  | press =>
      by_cases hc : (st.editorContent.trim.isEmpty || st.submitting) = true
      · simp [LessonPage.submitStep, hc, hInv]
      · simp only [Bool.or_eq_true, not_or, Bool.not_eq_true] at hc
        rw [hc.2] at hInv
        simp only [if_neg Bool.false_ne_true] at hInv
        simp [LessonPage.submitStep, hc.1, hc.2, hInv]
  | settle newContent =>
      by_cases hz : st.inflight = 0
      · rw [hz] at hInv
        simpa [LessonPage.submitStep, hz] using hInv
      · by_cases hsub : st.submitting = true
        · rw [hsub] at hInv
          simp only [if_pos rfl] at hInv
          simp [LessonPage.submitStep, hz, hInv]
        · rw [Bool.not_eq_true] at hsub
          rw [hsub] at hInv
          simp only [if_neg Bool.false_ne_true] at hInv
          exact absurd hInv hz

theorem LessonPage.foldl_submit_inv (s0 : LessonPage.SubmitState)
    (events : List LessonPage.SubmitEvent) (h0 : LessonPage.SubmitInv s0) :
    LessonPage.SubmitInv (events.foldl LessonPage.submitStep s0) := by
  induction events generalizing s0 with
  | nil => exact h0
  | cons e es ih => exact ih _ (LessonPage.submitStep_inv h0 e)

theorem LessonPage.runSubmits_inv (content : String)
    (events : List LessonPage.SubmitEvent) :
    LessonPage.SubmitInv (LessonPage.runSubmits content events) :=
  LessonPage.foldl_submit_inv _ events rfl

/-- C6: along any sequence of submit-path stimuli starting from an idle
page, at most one respondToLesson call is outstanding at any time, and a
press arriving while one is in flight leaves the state unchanged — the
second submission is rejected rather than sent. -/
theorem C6_no_concurrent_submissions (content : String)
    (events : List LessonPage.SubmitEvent) (st : LessonPage.SubmitState)
    (hsub : st.submitting = true) :
    (LessonPage.runSubmits content events).inflight ≤ 1 ∧
    LessonPage.submitStep st LessonPage.SubmitEvent.press = st := by
  constructor
  · have h := LessonPage.runSubmits_inv content events
    unfold LessonPage.SubmitInv at h
    rw [h]
    split <;> omega
  · simp [LessonPage.submitStep, hsub]

/-- Witness for C6: after one press with nonempty content, a request is in
flight and a second press is a no-op. -/
theorem C6_no_concurrent_submissions_witness :
    (LessonPage.runSubmits "kubectl get pods"
      [LessonPage.SubmitEvent.press]).inflight ≤ 1 ∧
    LessonPage.submitStep
      { editorContent := "kubectl get pods", submitting := true, inflight := 1 }
      LessonPage.SubmitEvent.press =
      { editorContent := "kubectl get pods", submitting := true, inflight := 1 } :=
  C6_no_concurrent_submissions "kubectl get pods"
    [LessonPage.SubmitEvent.press]
    { editorContent := "kubectl get pods", submitting := true, inflight := 1 }
    rfl

namespace GLS

theorem reviewerGateAux_retries (review : String → ReviewResult)
    (redraft : String → List String → String) :
    ∀ (fuel : Nat) (draft : String) (used : Nat),
      (reviewerGateAux review redraft fuel draft used).retries_used ≤ used + fuel := by
  intro fuel
  induction fuel with
  | zero => intro draft used; simp [reviewerGateAux]
  | succ n ih =>
      intro draft used
      unfold reviewerGateAux
      by_cases hp : (review draft).passed = true
      · rw [if_pos hp]
        show used ≤ used + (n + 1)
        omega
      · rw [Bool.not_eq_true] at hp
        simp only [hp, Bool.false_eq_true, if_false]
        have := ih (redraft draft (review draft).violations) (used + 1)
        omega

theorem reviewerGateAux_all_fail (review : String → ReviewResult)
    (redraft : String → List String → String)
    (hfail : ∀ s, (review s).passed = false) :
    ∀ (fuel : Nat) (draft : String) (used : Nat),
      reviewerGateAux review redraft fuel draft used =
        { released := redraftChain review redraft fuel draft,
          retries_used := used + fuel, degraded := true } := by
  intro fuel
  induction fuel with
  | zero => intro draft used; simp [reviewerGateAux, redraftChain]
  | succ n ih =>
      intro draft used
      unfold reviewerGateAux redraftChain
      simp only [hfail draft, Bool.false_eq_true, if_false]
      rw [ih (redraft draft (review draft).violations) (used + 1)]
      have : used + 1 + n = used + (n + 1) := by omega
      rw [this]

/-- C7: the Reviewer gate is a bounded loop: the redraft counter it spends
never exceeds the configured budget, and if every review fails the run
releases the last redraft with the degraded-quality flag set — the safety
bypass — rather than looping on. -/
theorem C7_reviewer_retry_budget (review : String → ReviewResult)
    (redraft : String → List String → String) (budget : Nat) (draft : String)
    (hfail : ∀ s, (review s).passed = false) :
    (reviewerGate review redraft budget draft).retries_used ≤ budget ∧
    reviewerGate review redraft budget draft =
      { released := redraftChain review redraft budget draft,
        retries_used := budget, degraded := true } := by
  constructor
  · have := reviewerGateAux_retries review redraft budget draft 0
    simpa [reviewerGate] using this
  · have := reviewerGateAux_all_fail review redraft hfail budget draft 0
    simpa [reviewerGate] using this

/-- Witness for C7: a reviewer that always fails, with the default budget
of 3, spends exactly 3 redraft requests and bypass-releases the third
redraft as degraded. -/
theorem C7_reviewer_retry_budget_witness :
    (reviewerGate (fun _ => { passed := false, violations := ["active-learning"], replacement := none })
        (fun d _ => d ++ "+") 3 "d").retries_used ≤ 3 ∧
    reviewerGate (fun _ => { passed := false, violations := ["active-learning"], replacement := none })
        (fun d _ => d ++ "+") 3 "d" =
      { released := redraftChain
          (fun _ => { passed := false, violations := ["active-learning"], replacement := none })
          (fun d _ => d ++ "+") 3 "d",
        retries_used := 3, degraded := true } :=
  C7_reviewer_retry_budget
    (fun _ => { passed := false, violations := ["active-learning"], replacement := none })
    (fun d _ => d ++ "+") 3 "d" (fun _ => rfl)

/-- C8: the Evaluator verdict is a function of exactly the learner
response, the bounded context window and the current node
expected-practice description: two invocations that agree on those three
inputs — even from two otherwise different session states — yield the same
verdict, and in particular the same should_advance value. -/
theorem C8_evaluator_deterministic (c : EvalClient) (cfg : SystemConfig)
    (s1 s2 : SessionState) (input1 input2 : String)
    (hin : input1 = input2)
    (hwin : evalWindow cfg s1.history = evalWindow cfg s2.history)
    (hexp : currentExpected s1 = currentExpected s2) :
    evaluateInState c cfg s1 input1 = evaluateInState c cfg s2 input2 ∧
    (evaluateInState c cfg s1 input1).map (fun v => v.should_advance) =
      (evaluateInState c cfg s2 input2).map (fun v => v.should_advance) := by
  subst hin
  have h : evaluateInState c cfg s1 input1 = evaluateInState c cfg s2 input1 := by
    unfold evaluateInState
    rw [hwin, hexp]
  exact ⟨h, by rw [h]⟩

/-- Witness for C8: two session states that differ in path tail, history
length and retry counter but agree on the last-2-turns window and the
current expected practice get the same verdict for the same response. -/
theorem C8_evaluator_deterministic_witness :
    evaluateInState demoClient demoCfg demoEvalState1 "a pod groups containers" =
      evaluateInState demoClient demoCfg demoEvalState2 "a pod groups containers" ∧
    (evaluateInState demoClient demoCfg demoEvalState1 "a pod groups containers").map
        (fun v => v.should_advance) =
      (evaluateInState demoClient demoCfg demoEvalState2 "a pod groups containers").map
        (fun v => v.should_advance) :=
  C8_evaluator_deterministic demoClient demoCfg demoEvalState1 demoEvalState2
    "a pod groups containers" "a pod groups containers" rfl rfl rfl

/-! ### Extraction lemmas for the state-machine step -/

theorem doStart_ok {ag : Agents} {st : SessionState} {plan : LessonPlan}
    {st' : SessionState} {out : TurnOutput}
    (h : doStart ag st plan = .ok (st', out)) :
    st.phase = .INIT ∧ st'.index = st.index ∧ st'.path = st.path ∧
    st'.phase = .PATH_SELECTION := by
  unfold doStart at h
  by_cases hI : st.phase = .INIT
  · rw [if_pos hI] at h
    by_cases hE : (ag.generate_paths plan).isEmpty = true
    · rw [if_pos hE] at h
      simp at h
    · rw [if_neg hE] at h
      simp only [Except.ok.injEq, Prod.mk.injEq] at h
      obtain ⟨h1, _⟩ := h
      subst h1
      exact ⟨hI, rfl, rfl, rfl⟩
  · rw [if_neg hI] at h
    simp at h

theorem doSelect_ok {cfg : SystemConfig} {ag : Agents} {st : SessionState}
    {choice : Nat} {st' : SessionState} {out : TurnOutput}
    (h : doSelect cfg ag st choice = .ok (st', out)) :
    st.phase = .PATH_SELECTION ∧ st'.index = 0 ∧ st'.phase = .TEACHING ∧
    0 < st'.path.length := by
  unfold doSelect at h
  by_cases hP : st.phase = .PATH_SELECTION
  · rw [if_pos hP] at h
    cases hcand : st.candidates[choice]? with
    | none => simp [hcand] at h
    | some p =>
        simp only [hcand] at h
        cases hnode : p[0]? with
        | none => simp [hnode] at h
        | some node0 =>
            simp only [hnode, Except.ok.injEq, Prod.mk.injEq] at h
            obtain ⟨h1, _⟩ := h
            subst h1
            refine ⟨hP, rfl, rfl, ?_⟩
            obtain ⟨hlt, _⟩ := List.getElem?_eq_some_iff.mp hnode
            exact hlt
  · rw [if_neg hP] at h
    simp at h

theorem advanceStep_ok {cfg : SystemConfig} {ag : Agents} {st : SessionState}
    {input : String} {verdict : EvaluatorVerdict} {st' : SessionState}
    {out : TurnOutput}
    (h : advanceStep cfg ag st input verdict = .ok (st', out)) :
    st'.path = st.path ∧ st'.index = st.index + 1 ∧
    ((st.index + 1 = st.path.length ∧ st'.phase = .COMPLETE) ∨
     (st.index + 1 ≠ st.path.length ∧ st'.phase = .TEACHING)) := by
  unfold advanceStep at h
  by_cases hfin : st.index + 1 = st.path.length
  · rw [if_pos hfin] at h
    simp only [Except.ok.injEq, Prod.mk.injEq] at h
    obtain ⟨h1, _⟩ := h
    subst h1
    exact ⟨rfl, rfl, Or.inl ⟨hfin, rfl⟩⟩
  · rw [if_neg hfin] at h
    cases hnext : st.path[st.index + 1]? with
    | none => simp [hnext] at h
    | some nextNode =>
        simp only [hnext, Except.ok.injEq, Prod.mk.injEq] at h
        obtain ⟨h1, _⟩ := h
        subst h1
        exact ⟨rfl, rfl, Or.inr ⟨hfin, rfl⟩⟩

theorem remediateStep_ok {cfg : SystemConfig} {ag : Agents}
    {st : SessionState} {input : String} {verdict : EvaluatorVerdict}
    {node : PathNode} {st' : SessionState} {out : TurnOutput}
    (h : remediateStep cfg ag st input verdict node = .ok (st', out)) :
    st'.path = st.path ∧ st'.index = st.index ∧ st'.phase = st.phase := by
  unfold remediateStep at h
  simp only [Except.ok.injEq, Prod.mk.injEq] at h
  obtain ⟨h1, _⟩ := h
  subst h1
  exact ⟨rfl, rfl, rfl⟩

theorem doRespond_ok {cfg : SystemConfig} {ag : Agents} {st : SessionState}
    {input : String} {st' : SessionState} {out : TurnOutput}
    (h : doRespond cfg ag st input = .ok (st', out)) :
    st.phase = .TEACHING ∧ st'.path = st.path ∧
    ∃ node, st.path[st.index]? = some node ∧
      (((ag.evaluate input (evalWindow cfg st.history)
           node.expected_practice).should_advance = true ∧
        st'.index = st.index + 1 ∧
        ((st.index + 1 = st.path.length ∧ st'.phase = .COMPLETE) ∨
         (st.index + 1 ≠ st.path.length ∧ st'.phase = .TEACHING))) ∨
       ((ag.evaluate input (evalWindow cfg st.history)
           node.expected_practice).should_advance = false ∧
        st'.index = st.index ∧ st'.phase = .TEACHING)) := by
  unfold doRespond at h
  by_cases hT : st.phase = .TEACHING
  · rw [if_pos hT] at h
    cases hnode : st.path[st.index]? with
    | none =>
        rw [hnode] at h
        simp at h
    | some node =>
        rw [hnode] at h
        simp only [] at h
        unfold respondWith at h
        by_cases hadv : (ag.evaluate input (evalWindow cfg st.history)
            node.expected_practice).should_advance = true
        · rw [if_pos hadv] at h
          obtain ⟨hpath, hidx, hfin⟩ := advanceStep_ok h
          exact ⟨hT, hpath, node, rfl, Or.inl ⟨hadv, hidx, hfin⟩⟩
        · rw [if_neg hadv] at h
          obtain ⟨hpath, hidx, hphase⟩ := remediateStep_ok h
          rw [Bool.not_eq_true] at hadv
          exact ⟨hT, hpath, node, rfl, Or.inr ⟨hadv, hidx, hphase.trans hT⟩⟩
  · rw [if_neg hT] at h
    simp at h

theorem step_ok {cfg : SystemConfig} {ag : Agents} {st : SessionState}
    {e : Event} {st' : SessionState} {out : TurnOutput}
    (h : step cfg ag st e = .ok (st', out)) :
    st.phase ≠ .COMPLETE ∧
    ((∃ plan, e = .start plan ∧ doStart ag st plan = .ok (st', out)) ∨
     (∃ choice, e = .selectPath choice ∧
        doSelect cfg ag st choice = .ok (st', out)) ∨
     (∃ input, e = .respond input ∧
        doRespond cfg ag st input = .ok (st', out))) := by
  unfold step at h
  by_cases hC : st.phase = .COMPLETE
  · rw [if_pos hC] at h
    simp at h
  · rw [if_neg hC] at h
    refine ⟨hC, ?_⟩
    cases e with
    | start plan => exact Or.inl ⟨plan, rfl, h⟩
    | selectPath choice => exact Or.inr (Or.inl ⟨choice, rfl, h⟩)
    | respond input => exact Or.inr (Or.inr ⟨input, rfl, h⟩)

/-! ### The orchestrator invariant -/

theorem Inv_initial : Inv SessionState.initial := by
  refine ⟨fun _ => rfl, fun h => ?_, fun h => ?_⟩ <;>
    simp [SessionState.initial] at h

theorem Inv_le {st : SessionState} (hInv : Inv st) :
    st.index ≤ st.path.length := by
  cases hph : st.phase with
  | INIT =>
      have := hInv.1 (Or.inl hph)
      omega
  | PATH_SELECTION =>
      have := hInv.1 (Or.inr hph)
      omega
  | TEACHING =>
      have := hInv.2.1 hph
      omega
  | COMPLETE =>
      have := hInv.2.2 hph
      omega

theorem step_Inv {cfg : SystemConfig} {ag : Agents} {st : SessionState}
    {e : Event} {st' : SessionState} {out : TurnOutput}
    (hInv : Inv st) (h : step cfg ag st e = .ok (st', out)) : Inv st' := by
  obtain ⟨hC, hcases⟩ := step_ok h
  rcases hcases with ⟨plan, rfl, hs⟩ | ⟨choice, rfl, hs⟩ | ⟨input, rfl, hs⟩
  · obtain ⟨hI, hidx, hpath, hphase⟩ := doStart_ok hs
    have h0 : st.index = 0 := hInv.1 (Or.inl hI)
    refine ⟨fun _ => by rw [hidx, h0], fun hT => ?_, fun hK => ?_⟩
    · rw [hphase] at hT
      simp at hT
    · rw [hphase] at hK
      simp at hK
  · obtain ⟨hP, hidx, hphase, hlen⟩ := doSelect_ok hs
    refine ⟨fun _ => hidx, fun _ => ?_, fun hK => ?_⟩
    · rw [hidx]
      exact hlen
    · rw [hphase] at hK
      simp at hK
  · obtain ⟨hT, hpath, node, hnode, hbr⟩ := doRespond_ok hs
    have hlt : st.index < st.path.length := hInv.2.1 hT
    rcases hbr with ⟨hadv, hidx, hfin⟩ | ⟨hadv, hidx, hphase⟩
    · rcases hfin with ⟨hlen, hphase⟩ | ⟨hlen, hphase⟩
      · refine ⟨fun hor => ?_, fun hT2 => ?_, fun _ => ?_⟩
        · rw [hphase] at hor
          rcases hor with h2 | h2 <;> simp at h2
        · rw [hphase] at hT2
          simp at hT2
        · rw [hidx, hpath]
          exact hlen
      · refine ⟨fun hor => ?_, fun _ => ?_, fun hK => ?_⟩
        · rw [hphase] at hor
          rcases hor with h2 | h2 <;> simp at h2
        · rw [hidx, hpath]
          omega
        · rw [hphase] at hK
          simp at hK
    · refine ⟨fun hor => ?_, fun _ => ?_, fun hK => ?_⟩
      · rw [hphase] at hor
        rcases hor with h2 | h2 <;> simp at h2
      · rw [hidx, hpath]
        exact hlt
      · rw [hphase] at hK
        simp at hK

theorem reachable_Inv {cfg : SystemConfig} {ag : Agents} {st : SessionState}
    (h : Reachable cfg ag st) : Inv st := by
  induction h with
  | initial => exact Inv_initial
  | next _ hstep ih => exact step_Inv ih hstep

/-- C2: along any ok step from a reachable session state, the node index is
within bounds before and after (0 le index le path length, the lower bound
being definitional for Nat) and never decreases. -/
theorem C2_index_bounded_monotone (cfg : SystemConfig) (ag : Agents)
    (st : SessionState) (e : Event) (st' : SessionState) (out : TurnOutput)
    (hst : Reachable cfg ag st) (h : step cfg ag st e = .ok (st', out)) :
    st.index ≤ st.path.length ∧ st.index ≤ st'.index ∧
    st'.index ≤ st'.path.length := by
  have hInv := reachable_Inv hst
  have hInv' := step_Inv hInv h
  refine ⟨Inv_le hInv, ?_, Inv_le hInv'⟩
  obtain ⟨hC, hcases⟩ := step_ok h
  rcases hcases with ⟨plan, rfl, hs⟩ | ⟨choice, rfl, hs⟩ | ⟨input, rfl, hs⟩
  · rw [(doStart_ok hs).2.1]
  · obtain ⟨hP, hidx, _, _⟩ := doSelect_ok hs
    rw [hidx, hInv.1 (Or.inr hP)]
  · obtain ⟨hT, hpath, node, hnode, hbr⟩ := doRespond_ok hs
    rcases hbr with ⟨_, hidx, _⟩ | ⟨_, hidx, _⟩ <;> omega

/-- Witness for C2 at the concrete start step from the initial state. -/
theorem C2_index_bounded_monotone_witness :
    SessionState.initial.index ≤ SessionState.initial.path.length ∧
    SessionState.initial.index ≤ demoS1.index ∧
    demoS1.index ≤ demoS1.path.length :=
  C2_index_bounded_monotone demoCfg demoAgents SessionState.initial
    (.start demoPlan) demoS1 demoOut1 Reachable.initial rfl

/-- C1: on any ok step from a reachable session state, if the node index
changes at all, the event was a learner response whose Evaluator verdict
carried should_advance = true — the ADVANCE edge — and the change is the
increment by one; no other orchestrator operation mutates the index. -/
theorem C1_index_changes_only_on_advance (cfg : SystemConfig) (ag : Agents)
    (st : SessionState) (e : Event) (st' : SessionState) (out : TurnOutput)
    (hst : Reachable cfg ag st) (h : step cfg ag st e = .ok (st', out))
    (hne : st'.index ≠ st.index) :
    eventIsAdvance cfg ag st e = true ∧ st'.index = st.index + 1 := by
  have hInv := reachable_Inv hst
  obtain ⟨hC, hcases⟩ := step_ok h
  rcases hcases with ⟨plan, rfl, hs⟩ | ⟨choice, rfl, hs⟩ | ⟨input, rfl, hs⟩
  · exact absurd (doStart_ok hs).2.1 hne
  · obtain ⟨hP, hidx, _, _⟩ := doSelect_ok hs
    rw [hInv.1 (Or.inr hP)] at hne
    exact absurd hidx hne
  · obtain ⟨hT, hpath, node, hnode, hbr⟩ := doRespond_ok hs
    rcases hbr with ⟨hadv, hidx, _⟩ | ⟨hadv, hidx, _⟩
    · refine ⟨?_, hidx⟩
      unfold eventIsAdvance
      rw [hnode]
      exact hadv
    · exact absurd hidx hne

/-- Witness for C1 at the concrete advancing response from demoS2. -/
theorem C1_index_changes_only_on_advance_witness :
    eventIsAdvance demoCfg demoAgents demoS2
      (.respond "it groups containers") = true ∧
    demoS3.index = demoS2.index + 1 :=
  C1_index_changes_only_on_advance demoCfg demoAgents demoS2
    (.respond "it groups containers") demoS3 demoOut3
    (Reachable.next (Reachable.next Reachable.initial
      (show step demoCfg demoAgents SessionState.initial (.start demoPlan) =
        .ok (demoS1, demoOut1) from rfl))
      (show step demoCfg demoAgents demoS1 (.selectPath 0) =
        .ok (demoS2, demoOut2) from rfl))
    rfl (by decide)

/-- C3: when a learner response drives a reachable session so that the node
index reaches the path length, the phase becomes COMPLETE; and a session in
COMPLETE rejects any further event — under any agent set, so no agent is
invoked — with SessionClosedError. -/
theorem C3_complete_is_terminal (cfg : SystemConfig) (ag ag2 : Agents)
    (st : SessionState) (input : String) (st' : SessionState)
    (out : TurnOutput) (e2 : Event) (hst : Reachable cfg ag st)
    (h : step cfg ag st (.respond input) = .ok (st', out)) :
    (st'.index = st'.path.length → st'.phase = .COMPLETE) ∧
    (st'.phase = .COMPLETE →
      step cfg ag2 st' e2 = .error .SessionClosedError) := by
  constructor
  · intro hlen
    have hInv := reachable_Inv hst
    obtain ⟨hC, hcases⟩ := step_ok h
    rcases hcases with ⟨plan, he, _⟩ | ⟨choice, he, _⟩ | ⟨input2, he, hs⟩
    · simp at he
    · simp at he
    · obtain ⟨hT, hpath, node, hnode, hbr⟩ := doRespond_ok hs
      have hlt : st.index < st.path.length := hInv.2.1 hT
      rw [hpath] at hlen
      rcases hbr with ⟨hadv, hidx, hfin⟩ | ⟨hadv, hidx, hphase⟩
      · rcases hfin with ⟨_, hphase⟩ | ⟨hne2, hphase⟩
        · exact hphase
        · rw [hidx] at hlen
          exact absurd hlen hne2
      · rw [hidx] at hlen
        omega
  · intro hK
    unfold step
    rw [if_pos hK]

/-- Witness for C3 at the concrete completing response: the session reaches
COMPLETE and then rejects further input under a different agent set. -/
theorem C3_complete_is_terminal_witness :
    demoS3.phase = Phase.COMPLETE ∧
    step demoCfg demoAgentsB demoS3 (.respond "one more question") =
      .error .SessionClosedError := by
  have T := C3_complete_is_terminal demoCfg demoAgents demoAgentsB demoS2
    "it groups containers" demoS3 demoOut3 (.respond "one more question")
    (Reachable.next (Reachable.next Reachable.initial
      (show step demoCfg demoAgents SessionState.initial (.start demoPlan) =
        .ok (demoS1, demoOut1) from rfl))
      (show step demoCfg demoAgents demoS1 (.selectPath 0) =
        .ok (demoS2, demoOut2) from rfl))
    rfl
  exact ⟨T.1 rfl, T.2 (T.1 rfl)⟩

end GLS

end Nebula
